import Mathlib

/-!
Verification of the AWX MCP server's controller access layer:
the REST request client with retry/backoff (`rest_client.py`),
the job-output retrieval pipeline (`get_job_stdout`), and the
failure-diagnosis engine (`utils/parsing.py`).

Python values coming off the wire are modelled by the `JVal` type;
`jsonLoads` models the standard library's `json.loads` (restricted to
null/bool/integer/string/array/object payloads, which is all the claims
exercise).  Strings are Lean `String`s; newline splitting and joining are
modelled at the character-list level by `splitNl`/`joinNl`.
-/

namespace AwxMcp

/-- A JSON-compatible Python value (the payloads the controller returns). -/
inductive JVal where
  | jnull
  | jbool (b : Bool)
  | jint (n : Int)
  | jstr (s : String)
  | jarr (xs : List JVal)
  | jobj (fields : List (String × JVal))

/-- Key lookup in a JSON object's field list (first occurrence wins,
matching Python dict semantics for the deserialized objects we model). -/
def JVal.get : JVal → String → Option JVal
  | .jobj fields, k => fields.lookup k
  | _, _ => none

/-- Python `needle in hay` for strings: substring containment. -/
def pyIn (needle hay : String) : Bool := decide (needle.data <:+: hay.data)

/-- Python `s.lower()` for the ASCII texts this layer handles. -/
def pyLower (s : String) : String := String.mk (s.data.map Char.toLower)

/-- Whitespace characters removed by Python's `str.strip()`. -/
def isPyWs (c : Char) : Bool :=
  c = ' ' ∨ c = '\t' ∨ c = '\n' ∨ c = '\r' ∨ c = '\x0b' ∨ c = '\x0c'

/-- Python `s.strip()` for the ASCII texts this layer handles. -/
def pyStrip (s : String) : String :=
  String.mk (((s.data.dropWhile isPyWs).reverse.dropWhile isPyWs).reverse)

/-- Whitespace skipping for the `json.loads` model. -/
def skipWs : List Char → List Char
  | c :: rest => if c = ' ' ∨ c = '\n' ∨ c = '\t' ∨ c = '\r' then skipWs rest else c :: rest
  | [] => []

/-- Accumulate a run of decimal digits. -/
def parseDigitsAux : Nat → List Char → Nat × List Char
  | acc, c :: rest =>
    if c.isDigit then parseDigitsAux (acc * 10 + (c.toNat - '0'.toNat)) rest
    else (acc, c :: rest)
  | acc, [] => (acc, [])

/-- Parse a nonempty run of decimal digits. -/
def parseNat : List Char → Option (Nat × List Char)
  | c :: rest =>
    if c.isDigit then some (parseDigitsAux (c.toNat - '0'.toNat) rest) else none
  | [] => none

/-- Read the characters of a JSON string literal up to the closing quote
(escape sequences are not modelled; the texts this layer exchanges do not
use them). -/
def parseStrChars : List Char → Option (List Char × List Char)
  | c :: rest =>
    if c = '"' then some ([], rest)
    else match parseStrChars rest with
      | some (cs, rest') => some (c :: cs, rest')
      | none => none
  | [] => none

mutual

/-- Fueled recursive-descent JSON parser (one value plus remaining input). -/
def parseJ : Nat → List Char → Option (JVal × List Char)
  | 0, _ => none
  | Nat.succ fuel, input =>
    match skipWs input with
    | [] => none
    | c :: rest =>
      if c = 'n' then
        if rest.take 3 = ['u', 'l', 'l'] then some (.jnull, rest.drop 3) else none
      else if c = 't' then
        if rest.take 3 = ['r', 'u', 'e'] then some (.jbool true, rest.drop 3) else none
      else if c = 'f' then
        if rest.take 4 = ['a', 'l', 's', 'e'] then some (.jbool false, rest.drop 4) else none
      else if c = '-' then
        match parseNat rest with
        | some (n, rest') => some (.jint (-(n : Int)), rest')
        | none => none
      else if c.isDigit then
        match parseNat (c :: rest) with
        | some (n, rest') => some (.jint (n : Int), rest')
        | none => none
      else if c = '"' then
        match parseStrChars rest with
        | some (cs, rest') => some (.jstr (String.mk cs), rest')
        | none => none
      else if c = '[' then
        match skipWs rest with
        | ']' :: rest' => some (.jarr [], rest')
        | _ =>
          match parseArr fuel rest with
          | some (xs, rest') => some (.jarr xs, rest')
          | none => none
      else if c = '\x7b' then
        match skipWs rest with
        | '\x7d' :: rest' => some (.jobj [], rest')
        | _ =>
          match parseObj fuel rest with
          | some (fs, rest') => some (.jobj fs, rest')
          | none => none
      else none

/-- Parse the elements of a nonempty JSON array, including the closing
bracket. -/
def parseArr : Nat → List Char → Option (List JVal × List Char)
  | 0, _ => none
  | Nat.succ fuel, input =>
    match parseJ fuel input with
    | some (v, rest) =>
      match skipWs rest with
      | ',' :: rest' =>
        match parseArr fuel rest' with
        | some (xs, rest'') => some (v :: xs, rest'')
        | none => none
      | ']' :: rest' => some ([v], rest')
      | _ => none
    | none => none

/-- Parse the members of a nonempty JSON object, including the closing
brace. -/
def parseObj : Nat → List Char → Option (List (String × JVal) × List Char)
  | 0, _ => none
  | Nat.succ fuel, input =>
    match skipWs input with
    | '"' :: rest =>
      match parseStrChars rest with
      | some (kcs, rest') =>
        match skipWs rest' with
        | ':' :: rest'' =>
          match parseJ fuel rest'' with
          | some (v, rest3) =>
            match skipWs rest3 with
            | ',' :: rest4 =>
              match parseObj fuel rest4 with
              | some (fs, rest5) => some ((String.mk kcs, v) :: fs, rest5)
              | none => none
            | '\x7d' :: rest4 => some ([(String.mk kcs, v)], rest4)
            | _ => none
          | none => none
        | _ => none
      | none => none
    | _ => none

end

/-- Model of Python's `json.loads` over the payload shapes this layer
exchanges: `none` means the call raises `json.JSONDecodeError`. -/
def jsonLoads (s : String) : Option JVal :=
  match parseJ (s.length + 1) s.data with
  | some (v, rest) => if skipWs rest = [] then some v else none
  | none => none

/-- Python `s.split("\n")` at the character level: split into newline-separated
groups, keeping empty groups (Python semantics). -/
def splitNl : List Char → List (List Char)
  | [] => [[]]
  | c :: rest =>
    match splitNl rest with
    | [] => [[]]
    | g :: gs => if c = '\n' then [] :: g :: gs else (c :: g) :: gs

/-- Python `"\n".join(groups)` at the character level. -/
def joinNl : List (List Char) → List Char
  | [] => []
  | [g] => g
  | g :: g' :: gs => g ++ '\n' :: joinNl (g' :: gs)

/-- Python `s.split("\n")` for Lean strings. -/
def pySplitNl (s : String) : List String := (splitNl s.data).map String.mk

/-- Python `"\n".join(l)` for Lean strings. -/
def pyJoinNl (l : List String) : String := String.mk (joinNl (l.map String.data))

mutual

/-- Python `repr` of a JSON-compatible value (used where an f-string or
`str()` renders a non-string payload into a message). -/
def pyRepr : JVal → String
  | .jnull => "None"
  | .jbool true => "True"
  | .jbool false => "False"
  | .jint n => toString n
  | .jstr s => "\x27" ++ s ++ "\x27"
  | .jarr xs => "[" ++ pyReprList xs ++ "]"
  | .jobj fs => "\x7b" ++ pyReprFields fs ++ "\x7d"

/-- Comma-joined reprs of a list's elements. -/
def pyReprList : List JVal → String
  | [] => ""
  | [x] => pyRepr x
  | x :: y :: xs => pyRepr x ++ ", " ++ pyReprList (y :: xs)

/-- Comma-joined reprs of a dict's members. -/
def pyReprFields : List (String × JVal) → String
  | [] => ""
  | [(k, v)] => "\x27" ++ k ++ "\x27: " ++ pyRepr v
  | (k, v) :: f :: fs =>
    "\x27" ++ k ++ "\x27: " ++ pyRepr v ++ ", " ++ pyReprFields (f :: fs)

end

/-- Python `str()` of a JSON-compatible value. -/
def pyStr : JVal → String
  | .jstr s => s
  | v => pyRepr v

/-! Section: Error taxonomy (`domain/exceptions.py`)

`AWXAuthenticationError` and `AWXConnectionError` subclass `AWXClientError`
in the source; here the three kinds the request client raises are distinct
constructors carrying their message. -/

/-- The typed errors `RestAWXClient` raises. -/
inductive AWXError where
  | authenticationError (msg : String)
  | connectionError (msg : String)
  | clientError (msg : String)
deriving Repr, DecidableEq

/-- The message the exception carries (Python `str(e)`). -/
def AWXError.message : AWXError → String
  | .authenticationError m => m
  | .connectionError m => m
  | .clientError m => m

/-! Section: Controller request client (`rest_client.py`, `_request`) -/

/-- An HTTP response as `httpx` presents it: status code, body text, and
the `content-type` header.  `response.json()` is `jsonLoads` of the body. -/
structure Response where
  status : Nat
  text : String
  contentType : String := ""

/-- The outcome of one underlying `httpx` call: a response, or a raised
transport exception (`httpx.ConnectError`, `httpx.TimeoutException`, or
anything else). -/
inductive HttpOutcome where
  | resp (r : Response)
  | connectErr (msg : String)
  | timeoutErr (msg : String)
  | otherExc (msg : String)

/-- Best-effort error detail extraction used by the 404 and generic ≥400
branches of `_request`: start from the raw body, then try
`response.json().get("detail", ...)`; any failure in that attempt is
swallowed and the raw body kept. -/
def errorDetail (r : Response) : String :=
  match jsonLoads r.text with
  | some (.jobj fields) =>
    match fields.lookup "detail" with
    | some (.jstr s) => s
    | some v => pyStr v
    | none => r.text
  | _ => r.text

/-- One un-retried pass of `RestAWXClient._request`: status-code mapping on
a received response, and wrapping of transport exceptions. -/
def requestOnce (endpoint : String) (o : HttpOutcome) : Except AWXError JVal :=
  match o with
  | .resp r =>
    if r.status = 401 then
      .error (.authenticationError "Authentication failed")
    else if r.status = 403 then
      .error (.authenticationError "Permission denied")
    else if r.status = 404 then
      .error (.clientError ("Endpoint not found: " ++ endpoint ++ " - " ++ errorDetail r))
    else if r.status ≥ 400 then
      .error (.clientError ("API error " ++ toString r.status ++ ": " ++ errorDetail r))
    else
      match jsonLoads r.text with
      | some v => .ok v
      | none => .error (.clientError "Request failed: response body is not JSON")
  | .connectErr m => .error (.connectionError ("Failed to connect to AWX: " ++ m))
  | .timeoutErr m => .error (.connectionError ("Request timeout: " ++ m))
  | .otherExc m => .error (.clientError ("Request failed: " ++ m))

/-- Model of `tenacity.wait_exponential(multiplier, min, max)`: the delay slept
after the `attempt_number`-th failed attempt is
`clamp(min, max, multiplier * 2 ^ (attempt_number - 1))`. -/
def wait_exponential (multiplier minW maxW attempt_number : Nat) : Nat :=
  max minW (min (multiplier * 2 ^ (attempt_number - 1)) maxW)

/-- The `tenacity.retry` driver with `reraise=True`: run attempts starting
at `attempt`; any exception is retried while retries remain (the decorator
carries no `retry=` predicate, so its default — retry on every
`Exception` — applies); the last attempt's outcome is surfaced as-is.
Returns the result, the number of attempts performed, and the backoff
delays slept between attempts. -/
def tenacityGo (call : Nat → Except AWXError JVal) (wait : Nat → Nat) :
    Nat → Nat → List Nat → Except AWXError JVal × Nat × List Nat
  | attempt, 0, delays => (call attempt, attempt, delays.reverse)
  | attempt, retriesLeft + 1, delays =>
    match call attempt with
    | .ok v => (.ok v, attempt, delays.reverse)
    | .error _ => tenacityGo call wait (attempt + 1) retriesLeft (wait attempt :: delays)

/-- Model of `RestAWXClient._request` over a trace of underlying call outcomes:
`@retry(stop=stop_after_attempt(3), wait=wait_exponential(multiplier=1,
min=2, max=10), reraise=True)` wrapped around `requestOnce`. -/
def «_request» (endpoint : String) (trace : Nat → HttpOutcome) :
    Except AWXError JVal × Nat × List Nat :=
  tenacityGo (fun n => requestOnce endpoint (trace n)) (wait_exponential 1 2 10) 1 2 []

/-- Model of `RestAWXClient._parse_extra_vars`: dicts pass through, nonblank strings
are handed to `json.loads` with decode failures mapped to `{}` — but a
successful decode is returned whatever it is — and everything else maps
to `{}`. -/
def «_parse_extra_vars» (extra_vars : JVal) : JVal :=
  match extra_vars with
  | .jobj fields => .jobj fields
  | .jstr s =>
    if pyStrip s ≠ "" then
      match jsonLoads s with
      | some v => v
      | none => .jobj []
    else .jobj []
  | _ => .jobj []

/-! Section: Domain records for events and diagnosis (`domain/models.py`)

`event_data` is a free-form `dict[str, Any]` (pydantic only validates the
outer dict), so it is modelled as an association list of arbitrary `JVal`
payloads; the classifier's dynamic-typing failures on unusual payloads are
modelled as raised Python exceptions. -/

/-- Python name of a JSON-compatible value's type, as it appears in
`TypeError` messages. -/
def pyTypeName : JVal → String
  | .jnull => "NoneType"
  | .jbool _ => "bool"
  | .jint _ => "int"
  | .jstr _ => "str"
  | .jarr _ => "list"
  | .jobj _ => "dict"

/-- Exceptions the classifier can raise on payloads outside the documented
`event_data` shape: `TypeError` from `in`/indexing/concatenation on
non-container values, `KeyError` from dict indexing, and pydantic v2's
`ValidationError` for non-string values reaching `FailureAnalysis`'s
string-typed fields. -/
inductive PyExc where
  | typeError (msg : String)
  | keyError (msg : String)
  | validationError (msg : String)
deriving Repr, DecidableEq

/-- An AWX job event. -/
structure JobEvent where
  id : Int
  event : String
  event_level : Int := 0
  failed : Bool := false
  changed : Bool := false
  task : Option String := none
  play : Option String := none
  role : Option String := none
  host : Option String := none
  stdout : Option String := none
  stderr : Option String := none
  event_data : List (String × JVal) := []

/-- Python `key in value` for an arbitrary value: key test on dicts,
substring test on strings, membership test on lists, and a `TypeError` on
non-container values. -/
def pyInVal (k : String) (v : JVal) : Except PyExc Bool :=
  match v with
  | .jobj fields => .ok (fields.lookup k).isSome
  | .jstr s => .ok (pyIn k s)
  | .jarr xs => .ok (xs.any fun x => match x with | .jstr s => s == k | _ => false)
  | v => .error (.typeError
      ("argument of type \x27" ++ pyTypeName v ++ "\x27 is not iterable"))

/-- Python `value[key]` with a string key: dict lookup, and a
`TypeError` on strings, lists and non-subscriptable values. -/
def pyIndexStr (v : JVal) (k : String) : Except PyExc JVal :=
  match v with
  | .jobj fields =>
    match fields.lookup k with
    | some x => .ok x
    | none => .error (.keyError ("KeyError: \x27" ++ k ++ "\x27"))
  | .jstr _ => .error (.typeError "string indices must be integers")
  | .jarr _ => .error (.typeError "list indices must be integers or slices, not str")
  | v => .error (.typeError
      ("\x27" ++ pyTypeName v ++ "\x27 object is not subscriptable"))

/-- pydantic v2 validation of a value assigned to a `str`-typed model
field: only actual strings are accepted. -/
def pydanticStr (v : JVal) : Except PyExc String :=
  match v with
  | .jstr s => .ok s
  | v => .error (.validationError
      ("Input should be a valid string, got " ++ pyTypeName v))

/-! Section: Job output retriever (`rest_client.py`, `get_job_stdout`) -/

/-- The 404-fallback reconstruction: every event's truthy (non-empty)
`stdout` field, in list order, joined with newlines. -/
def reconstructOutput (events : List JobEvent) : String :=
  pyJoinNl ((events.filterMap (·.stdout)).filter (fun s => s != ""))

/-- Python truthiness of a JSON-compatible value (`if ... and content:`). -/
def pyTruthy : JVal → Bool
  | .jnull => false
  | .jbool b => b
  | .jint n => n != 0
  | .jstr s => s != ""
  | .jarr xs => !xs.isEmpty
  | .jobj fields => !fields.isEmpty

/-- Decode a successful (2xx) stdout response body: JSON content-types are
parsed and `content = data.get("content", "")` taken for a dict — the raw
value, whatever its type — or `content = str(data)` for a non-dict,
falling back to the raw text if parsing fails; any other content-type is
the raw text. -/
def assembleSuccessContent (r : Response) : JVal :=
  if pyIn "application/json" (pyLower r.contentType) then
    match jsonLoads r.text with
    | some (.jobj fields) =>
      match fields.lookup "content" with
      | some v => v
      | none => .jstr ""
    | some v => .jstr (pyStr v)
    | none => .jstr r.text
  else .jstr r.text

/-- Model of `if tail_lines and content: content = "\n".join(content.split("\n")[-tail_lines:])`
for string content: keep only the last `t` newline-delimited lines,
skipped entirely when `tail_lines` is `None`/`0` or the content is
empty. -/
def applyTail (tail_lines : Option Nat) (content : String) : String :=
  match tail_lines with
  | some t =>
    if t ≠ 0 ∧ content ≠ "" then
      let lines := pySplitNl content
      pyJoinNl (lines.drop (lines.length - t))
    else content
  | none => content

/-- The `AWXClientError` produced by the outer `except Exception` when
`content.split` raises `AttributeError` on a non-string content. -/
def splitAttrError (job_id : Int) (v : JVal) : AWXError :=
  .clientError ("Unexpected error fetching job " ++ toString job_id ++
    " output: \x27" ++ pyTypeName v ++ "\x27 object has no attribute \x27split\x27")

/-- The tail-truncation step of `get_job_stdout` over the assembled
content value: with a truthy `tail_lines` and truthy content,
`content.split("\n")` runs — which, for a non-string content, raises
`AttributeError`, caught by the enclosing `except Exception` and wrapped
into `AWXClientError("Unexpected error fetching job ... output: ...")`;
otherwise the content is returned as it is, string or not. -/
def applyTailV (job_id : Int) (tail_lines : Option Nat) (content : JVal) :
    Except AWXError JVal :=
  match tail_lines with
  | some t =>
    if t ≠ 0 ∧ pyTruthy content = true then
      match content with
      | .jstr s =>
        .ok (.jstr (pyJoinNl ((pySplitNl s).drop ((pySplitNl s).length - t))))
      | .jnull => .error (splitAttrError job_id .jnull)
      | .jbool b => .error (splitAttrError job_id (.jbool b))
      | .jint m => .error (splitAttrError job_id (.jint m))
      | .jarr xs => .error (splitAttrError job_id (.jarr xs))
      | .jobj fields => .error (splitAttrError job_id (.jobj fields))
    else .ok content
  | none => .ok content

/-- Model of `RestAWXClient.get_job_stdout` over the outcome of its single,
un-retried primary HTTP call and an oracle for `self.get_job_events`
(flags: `failed_only`, `page`, `page_size`).  The 404 branch runs the
event-reconstruction fallback inside a `try`; both an error from the
events fetch and the deliberate "no output available" raise land in the
wrapping `except` and are re-raised as a client error.  403 maps directly
to a permission error and other ≥400 to a client error; transport errors
from `httpx` map to a connection error.  The returned value is a `JVal`
because a 2xx JSON body whose `content` field is a non-string is returned
raw when no truncation runs (see `applyTailV`). -/
def get_job_stdout (job_id : Int) (primary : HttpOutcome)
    (fetchEvents : Bool → Nat → Nat → Except AWXError (List JobEvent))
    (format : String) (tail_lines : Option Nat) : Except AWXError JVal :=
  match primary with
  | .resp r =>
    if r.status = 404 then
      let fallback : Except String String :=
        match fetchEvents false 1 1000 with
        | .error e => .error e.message
        | .ok events =>
          let content := reconstructOutput events
          if content = "" then
            .error ("Job " ++ toString job_id ++
              " has no output available (no stdout or job events)")
          else .ok content
      match fallback with
      | .ok content => .ok (.jstr content)
      | .error femsg =>
        .error (.clientError ("Job " ++ toString job_id ++
          " stdout endpoint unavailable (404) and job events fallback failed: " ++ femsg))
    else if r.status = 403 then
      .error (.authenticationError
        ("Permission denied to access job " ++ toString job_id ++ " stdout"))
    else if r.status ≥ 400 then
      .error (.clientError ("Failed to get job " ++ toString job_id ++
        " stdout (HTTP " ++ toString r.status ++ "): " ++ errorDetail r))
    else
      applyTailV job_id tail_lines (assembleSuccessContent r)
  | .connectErr m =>
    .error (.connectionError
      ("Network error fetching job " ++ toString job_id ++ " output: " ++ m))
  | .timeoutErr m =>
    .error (.connectionError
      ("Network error fetching job " ++ toString job_id ++ " output: " ++ m))
  | .otherExc m =>
    .error (.clientError
      ("Unexpected error fetching job " ++ toString job_id ++ " output: " ++ m))

/-! Section: Failure classifier (`utils/parsing.py`) -/

/-- Classification of job failure root causes. -/
inductive FailureCategory where
  | INVENTORY_ISSUE
  | AUTH_FAILURE
  | MISSING_VARIABLE
  | SYNTAX_ERROR
  | MODULE_FAILURE
  | CONNECTION_TIMEOUT
  | PERMISSION_DENIED
  | UNKNOWN
deriving Repr, DecidableEq

/-- Analysis of a job failure. -/
structure FailureAnalysis where
  job_id : Int
  category : FailureCategory
  task_name : Option String := none
  play_name : Option String := none
  role_name : Option String := none
  file_path : Option String := none
  host : Option String := none
  error_message : Option String := none
  stderr : Option String := none
  suggested_fixes : List String := []
  failed_events_count : Nat := 0

/-- First pattern group of `_classify_failure` (inventory issues). -/
def inventoryHit (combined : String) : Bool :=
  ["unreachable", "could not resolve hostname", "connection refused"].any
    (fun p => pyIn p combined)

/-- Second pattern group of `_classify_failure` (authentication). -/
def authHit (combined : String) : Bool :=
  ["permission denied", "authentication failed", "invalid credentials",
    "unauthorized"].any (fun p => pyIn p combined)

/-- Third pattern group of `_classify_failure` (missing variables). -/
def missingVarHit (combined : String) : Bool :=
  ["undefined variable", "variable is not defined"].any (fun p => pyIn p combined)

/-- Fourth pattern group of `_classify_failure` (syntax problems). -/
def syntaxHit (combined : String) : Bool :=
  ["syntax error", "yaml syntax", "unexpected token", "invalid syntax"].any
    (fun p => pyIn p combined)

/-- Timeout phrases of `_classify_failure`. -/
def timeoutHit (combined : String) : Bool :=
  pyIn "timeout" combined || pyIn "timed out" combined

/-- Permission + denied co-occurrence of `_classify_failure`. -/
def permissionHit (combined : String) : Bool :=
  pyIn "permission" combined && pyIn "denied" combined

/-- Package-manager module failure test of `_classify_failure`: the task
name is truthy and names yum/apt/dnf/package, and the combined text shows
a missing package. -/
def moduleHit (combined : String) (task : Option String) : Bool :=
  (match task with
   | some t => ["yum", "apt", "dnf", "package"].any (fun m => pyIn m (pyLower t))
   | none => false)
  && (pyIn "no package" combined || pyIn "not found" combined)

/-- Model of `_classify_failure`: case-insensitive substring matching on
`f"{error_msg} {stderr}".lower()`, first match wins.  The arguments are
the raw extracted values; the f-string renders non-strings with `str()`,
so classification itself never raises. -/
def «_classify_failure» (error_msg stderr : JVal) (event : JobEvent) :
    FailureCategory :=
  let combined := pyLower (pyStr error_msg ++ " " ++ pyStr stderr)
  if inventoryHit combined then .INVENTORY_ISSUE
  else if authHit combined then .AUTH_FAILURE
  else if missingVarHit combined then .MISSING_VARIABLE
  else if syntaxHit combined then .SYNTAX_ERROR
  else if timeoutHit combined then .CONNECTION_TIMEOUT
  else if permissionHit combined then .PERMISSION_DENIED
  else if moduleHit combined event.task then .MODULE_FAILURE
  else .UNKNOWN

/-- Word characters of the `\w` class (ASCII range, which is all the error
texts this layer sees). -/
def isWordChar (c : Char) : Bool := c.isAlphanum || c = '_'

/-- Regex tail `.*undefined` applied to the rest of the text: the literal `undefined`
must occur with no intervening newline (`.` does not cross lines). -/
def dotStarUndefined : List Char → Bool
  | [] => false
  | c :: rest =>
    decide ("undefined".data <+: c :: rest) || (c ≠ '\n' && dotStarUndefined rest)

/-- Model of `re.search(r"['\"]([\w_]+)['\"].*undefined", text)`: scan for the
leftmost quote followed by a nonempty word-character run, a closing quote,
and `undefined` later on the same line; return the captured run. -/
def varSearch : List Char → Option String
  | [] => none
  | c :: rest =>
    if c = '\x27' ∨ c = '"' then
      let w := rest.takeWhile isWordChar
      match w, rest.dropWhile isWordChar with
      | _ :: _, q :: r3 =>
        if (q = '\x27' ∨ q = '"') && dotStarUndefined r3 then some (String.mk w)
        else varSearch rest
      | _, _ => varSearch rest
    else varSearch rest

/-- Model of the regex argument `error_msg + stderr` in
`_generate_suggestions`: only a pair of actual strings reaches
`re.search`; every other combination raises a `TypeError`, either at the
`+` itself (mixed types) or inside `re.search` (a non-string result such
as `int + int`). -/
def pyAddForSearch (a b : JVal) : Except PyExc String :=
  match a, b with
  | .jstr x, .jstr y => .ok (x ++ y)
  | .jstr _, v => .error (.typeError
      ("can only concatenate str (not \x22" ++ pyTypeName v ++ "\x22) to str"))
  | v, _ => .error (.typeError
      ("expected string or bytes-like object, got \x27" ++ pyTypeName v ++ "\x27"))

/-- Model of `_generate_suggestions`: the fixed per-category remediation table; for
missing variables the offending name is extracted from
`error_msg + stderr` — which raises for non-string extracted values — and
a suggestion naming it is prepended. -/
def «_generate_suggestions» (category : FailureCategory)
    (error_msg stderr : JVal) (event : JobEvent) : Except PyExc (List String) :=
  match category with
  | .INVENTORY_ISSUE =>
    .ok ["Verify the host exists in the inventory",
     "Check network connectivity to the target host",
     "Ensure the hostname resolves correctly (check DNS or /etc/hosts)",
     "Verify firewall rules allow SSH connections"]
  | .AUTH_FAILURE =>
    .ok ["Verify SSH credentials or keys are correct",
     "Check that the user has access to the target host",
     "Ensure SSH key is in the authorized_keys file",
     "Verify sudo/become password if required"]
  | .MISSING_VARIABLE =>
    match pyAddForSearch error_msg stderr with
    | .error e => .error e
    | .ok text =>
      .ok ((match varSearch text.data with
         | some var_name =>
           ["Define the variable \x27" ++ var_name ++ "\x27 in extra_vars or playbook"]
         | none => [])
        ++ ["Check the playbook for required variables",
            "Add missing variables to extra_vars in the job template",
            "Verify variable names are spelled correctly"])
  | .SYNTAX_ERROR =>
    .ok ["Check YAML syntax in the playbook",
     "Verify proper indentation (use spaces, not tabs)",
     "Run ansible-playbook --syntax-check locally",
     "Check for missing quotes or special characters"]
  | .CONNECTION_TIMEOUT =>
    .ok ["Increase timeout values in ansible.cfg",
     "Check network latency to target hosts",
     "Verify no firewall is blocking connections",
     "Check if target host is overloaded"]
  | .PERMISSION_DENIED =>
    .ok ["Check file/directory permissions on target host",
     "Verify the user has necessary privileges",
     "Use \x27become: yes\x27 if elevated privileges are needed",
     "Check SELinux/AppArmor policies if applicable"]
  | .MODULE_FAILURE =>
    .ok ["Check module \x27" ++ (match event.task with
        | some t => t
        | none => "None") ++ "\x27 documentation for required parameters",
     "Verify the module is available on the target system",
     "Check module prerequisites are installed",
     "Review module error message for specific issues"]
  | .UNKNOWN =>
    .ok ["Review the full job output for more context",
     "Check Ansible module documentation",
     "Verify all task parameters are correct",
     "Try running the task manually on the target host"]

/-- The error-detail extraction of `analyze_job_failure`:
`error_message = event.stdout or ""` and `stderr = event.stderr or ""`,
then — when `event_data` has a `res` entry — `if "msg" in res:
error_message = res["msg"]` and `if "stderr" in res: stderr =
res["stderr"]`, with Python's dynamic `in`/indexing semantics: a
non-container `res` (e.g. an int) raises `TypeError` at the `in` test, and
a string or list `res` whose test succeeds raises at the indexing. -/
def extractErrorParts (event : JobEvent) : Except PyExc (JVal × JVal) :=
  let error_message : JVal := .jstr (event.stdout.getD "")
  let stderr0 : JVal := .jstr (event.stderr.getD "")
  match event.event_data.lookup "res" with
  | none => .ok (error_message, stderr0)
  | some res =>
    match pyInVal "msg" res with
    | .error e => .error e
    | .ok hasMsg =>
      match (if hasMsg then pyIndexStr res "msg" else .ok error_message) with
      | .error e => .error e
      | .ok error_message1 =>
        match pyInVal "stderr" res with
        | .error e => .error e
        | .ok hasStderr =>
          match (if hasStderr then pyIndexStr res "stderr" else .ok stderr0) with
          | .error e => .error e
          | .ok stderr1 => .ok (error_message1, stderr1)

/-- Model of `analyze_job_failure`: filter to failed events; with none, report
`unknown` with one generic suggestion; otherwise diagnose from the first
failed event, preferring `event_data.res.msg`/`.stderr` over the event's
own `stdout`/`stderr` fields.  The extraction, the missing-variable regex
argument, and pydantic's validation of the `FailureAnalysis` string fields
can all raise on payloads outside the documented shape, so the result is
an `Except`. -/
def analyze_job_failure (job_id : Int) (events : List JobEvent)
    (stdout : String) : Except PyExc FailureAnalysis :=
  let failed_events := events.filter (·.failed)
  match failed_events with
  | [] =>
    .ok { job_id := job_id
          category := .UNKNOWN
          suggested_fixes := ["No failed events found. Check job status for details."] }
  | event :: _ =>
    match extractErrorParts event with
    | .error e => .error e
    | .ok (error_message, stderr1) =>
      let category := «_classify_failure» error_message stderr1 event
      match «_generate_suggestions» category error_message stderr1 event with
      | .error e => .error e
      | .ok suggestions =>
        match pydanticStr error_message, pydanticStr stderr1 with
        | .ok em, .ok st =>
          .ok { job_id := job_id
                category := category
                task_name := event.task
                play_name := event.play
                role_name := event.role
                file_path := none
                host := event.host
                error_message := some em
                stderr := some st
                suggested_fixes := suggestions
                failed_events_count := failed_events.length }
        | .error e, _ => .error e
        | _, .error e => .error e

/-! Section: Project update polling (`rest_client.py`, `update_project`) -/

/-- Model of `status_data.get("status") in ["successful", "failed", "error",
"canceled"]`: a missing or non-string status never matches. -/
def isTerminalStatus (status_data : List (String × JVal)) : Bool :=
  match status_data.lookup "status" with
  | some (.jstr s) => ["successful", "failed", "error", "canceled"].contains s
  | _ => false

/-- The `for _ in range(60)` wait loop of `update_project` over an oracle
giving the body of the `i`-th status poll (0-based): poll, break on a
terminal status, otherwise `asyncio.sleep(1)` and continue.  Returns how
many polls were made and how many one-second sleeps were taken. -/
def pollLoop (polls : Nat → List (String × JVal)) :
    Nat → Nat → Nat → Nat × Nat
  | done, slept, 0 => (done, slept)
  | done, slept, fuel + 1 =>
    if isTerminalStatus (polls done) then (done + 1, slept)
    else pollLoop polls (done + 1) (slept + 1) fuel

/-- Model of `RestAWXClient.update_project` after its launch POST succeeded with
response object `data`: when `wait` is set and the response carries an
`id`, run the 60-poll wait loop; the launch response itself is returned.
Result: (returned object, polls made, seconds slept). -/
def update_project (data : List (String × JVal))
    (polls : Nat → List (String × JVal)) (wait : Bool) :
    List (String × JVal) × Nat × Nat :=
  let counts :=
    if wait && (data.lookup "id").isSome then pollLoop polls 0 0 60 else (0, 0)
  (data, counts)

/-! Section: Delete operations (`rest_client.py`)

Every `delete_*` method issues its DELETE through `self.client.request`
(the raw `httpx` client), not through `self._request`, discards the
response, and returns `None`. -/

/-- The outcome of one raw `httpx` call: a response (any status code) or a
raised transport exception. -/
inductive RawOutcome where
  | resp (status : Nat) (text : String)
  | exc (msg : String)

/-- What a delete call can surface: a typed AWX error (never produced on
this path) or an unwrapped transport exception. -/
inductive PyError where
  | awx (e : AWXError)
  | transport (msg : String)
deriving Repr, DecidableEq

/-- Model of `await self.client.request("DELETE", endpoint)` with the result
discarded: one attempt, no status-code inspection, no typed errors.
Returns (outcome, attempts made, endpoint hit). -/
def clientDelete (endpoint : String) (conn : Nat → RawOutcome) :
    Except PyError Unit × Nat × String :=
  match conn 1 with
  | .resp _ _ => (.ok (), 1, endpoint)
  | .exc m => (.error (.transport m), 1, endpoint)

/-- Model of `RestAWXClient.delete_credential`. -/
def delete_credential (cred_id : Int) (conn : Nat → RawOutcome) :
    Except PyError Unit × Nat × String :=
  clientDelete ("/api/v2/credentials/" ++ toString cred_id ++ "/") conn

/-- Model of `RestAWXClient.delete_job_template`. -/
def delete_job_template (template_id : Int) (conn : Nat → RawOutcome) :
    Except PyError Unit × Nat × String :=
  clientDelete ("/api/v2/job_templates/" ++ toString template_id ++ "/") conn

/-- Model of `RestAWXClient.delete_project`. -/
def delete_project (project_id : Int) (conn : Nat → RawOutcome) :
    Except PyError Unit × Nat × String :=
  clientDelete ("/api/v2/projects/" ++ toString project_id ++ "/") conn

/-- Model of `RestAWXClient.delete_inventory`. -/
def delete_inventory (inventory_id : Int) (conn : Nat → RawOutcome) :
    Except PyError Unit × Nat × String :=
  clientDelete ("/api/v2/inventories/" ++ toString inventory_id ++ "/") conn

/-- Model of `RestAWXClient.delete_inventory_group`. -/
def delete_inventory_group (group_id : Int) (conn : Nat → RawOutcome) :
    Except PyError Unit × Nat × String :=
  clientDelete ("/api/v2/groups/" ++ toString group_id ++ "/") conn

/-- Model of `RestAWXClient.delete_inventory_host`. -/
def delete_inventory_host (host_id : Int) (conn : Nat → RawOutcome) :
    Except PyError Unit × Nat × String :=
  clientDelete ("/api/v2/hosts/" ++ toString host_id ++ "/") conn

/-- Model of `RestAWXClient.delete_job`. -/
def delete_job (job_id : Int) (conn : Nat → RawOutcome) :
    Except PyError Unit × Nat × String :=
  clientDelete ("/api/v2/jobs/" ++ toString job_id ++ "/") conn

/-! Section: Supporting lemmas -/

theorem splitNl_ne_nil (cs : List Char) : splitNl cs ≠ [] := by
  induction cs with
  | nil => simp [splitNl]
  | cons c rest ih =>
    rw [splitNl]
    cases h : splitNl rest with
    | nil => exact absurd h ih
    | cons g gs => dsimp only; split <;> simp

theorem splitNl_no_newline (cs : List Char) : ∀ g ∈ splitNl cs, '\n' ∉ g := by
  induction cs with
  | nil => simp [splitNl]
  | cons c rest ih =>
    intro g hg
    rw [splitNl] at hg
    split at hg
    · rename_i heq
      exact absurd heq (splitNl_ne_nil rest)
    · rename_i g0 gs heq
      split at hg
      · rcases List.mem_cons.mp hg with hg' | hg'
        · simp [hg']
        · exact ih g (by rw [heq]; exact hg')
      · rename_i hc
        rcases List.mem_cons.mp hg with hg' | hg'
        · subst hg'
          intro hmem
          rcases List.mem_cons.mp hmem with hm | hm
          · exact hc hm.symm
          · exact ih g0 (by rw [heq]; exact List.mem_cons_self g0 gs) hm
        · exact ih g (by rw [heq]; exact List.mem_cons_of_mem g0 hg')

theorem splitNl_of_no_newline (g : List Char) (h : '\n' ∉ g) : splitNl g = [g] := by
  induction g with
  | nil => rfl
  | cons c t ih =>
    have hc : c ≠ '\n' := fun hc => h (hc ▸ List.mem_cons_self c t)
    have ht : '\n' ∉ t := fun hm => h (List.mem_cons_of_mem c hm)
    rw [splitNl, ih ht]
    dsimp only
    rw [if_neg hc]

theorem splitNl_append_newline (g cs : List Char) (h : '\n' ∉ g) :
    splitNl (g ++ '\n' :: cs) = g :: splitNl cs := by
  induction g with
  | nil =>
    rw [List.nil_append, splitNl]
    cases hcs : splitNl cs with
    | nil => exact absurd hcs (splitNl_ne_nil cs)
    | cons g0 gs => dsimp only; simp
  | cons c t ih =>
    have hc : c ≠ '\n' := fun hc => h (hc ▸ List.mem_cons_self c t)
    have ht : '\n' ∉ t := fun hm => h (List.mem_cons_of_mem c hm)
    rw [List.cons_append, splitNl, ih ht]
    dsimp only
    rw [if_neg hc]

theorem splitNl_joinNl : ∀ gs : List (List Char), gs ≠ [] →
    (∀ g ∈ gs, '\n' ∉ g) → splitNl (joinNl gs) = gs
  | [], h, _ => absurd rfl h
  | [g], _, hnl => by
    show splitNl g = [g]
    exact splitNl_of_no_newline g (hnl g (List.mem_cons_self g []))
  | g :: g' :: gs, _, hnl => by
    show splitNl (g ++ '\n' :: joinNl (g' :: gs)) = g :: g' :: gs
    rw [splitNl_append_newline g _ (hnl g (List.mem_cons_self g _)),
      splitNl_joinNl (g' :: gs) (by simp)
        (fun x hx => hnl x (List.mem_cons_of_mem g hx))]

theorem joinNl_cons_ne_nil (g : List Char) (gs : List (List Char)) (h : g ≠ []) :
    joinNl (g :: gs) ≠ [] := by
  cases gs with
  | nil => exact h
  | cons g' gs' =>
    show g ++ '\n' :: joinNl (g' :: gs') ≠ []
    simp

theorem data_mk (cs : List Char) : (String.mk cs).data = cs := rfl

theorem mk_data (s : String) : String.mk s.data = s := by cases s; rfl

theorem ne_empty_of_data_ne_nil {s : String} (h : s.data ≠ []) : s ≠ "" :=
  fun he => h (by rw [he])

theorem data_ne_nil_of_ne_empty {s : String} (h : s ≠ "") : s.data ≠ [] := by
  intro hd
  exact h (by rw [← mk_data s, hd])

theorem requestOnce_error_of_ge_400 (endpoint : String) (r : Response)
    (h : 400 ≤ r.status) : ∃ e, requestOnce endpoint (.resp r) = .error e := by
  rw [requestOnce]
  split_ifs with h1 h2 h3 h4
  all_goals exact ⟨_, rfl⟩

/-! Section: Claim theorems -/

/-- C1, counterexample: the claim says an HTTP 4xx application response
causes exactly one attempt with the mapped error propagating immediately.
On a trace answering 401 to every attempt, `_request` in fact performs 3
attempts (the `tenacity` decorator's default predicate retries every
exception, including the mapped `AWXAuthenticationError`) before the
mapped error surfaces — and 3 ≠ 1. -/
theorem claim1_counterexample :
    «_request» "/api/v2/me/" (fun _ => .resp ⟨401, "", ""⟩)
      = (.error (.authenticationError "Authentication failed"), 3, [2, 2])
    ∧ (3 : Nat) ≠ 1 := ⟨rfl, by decide⟩

/-- C1 (amended): the request operation retries every failure, connection
errors and mapped HTTP errors alike.  A run whose first two attempts fail
with connection errors and whose third receives a 200 JSON response
returns the successful result after exactly 3 attempts with non-decreasing
backoff delays [2, 2]; a run answered by any HTTP ≥400 response likewise
performs 3 attempts and then propagates the mapped error. -/
theorem claim1_amended :
    (∀ (endpoint : String) (trace : Nat → HttpOutcome) (m1 m2 : String)
      (r : Response) (v : JVal),
      trace 1 = .connectErr m1 → trace 2 = .connectErr m2 → trace 3 = .resp r →
      r.status = 200 → jsonLoads r.text = some v →
      «_request» endpoint trace = (.ok v, 3, [2, 2]) ∧ List.Chain' (· ≤ ·) [2, 2])
    ∧ (∀ (endpoint : String) (trace : Nat → HttpOutcome) (r : Response),
      (∀ n, trace n = .resp r) → 400 ≤ r.status →
      («_request» endpoint trace).2.1 = 3
      ∧ ∃ e, («_request» endpoint trace).1 = .error e) := by
  constructor
  · intro endpoint trace m1 m2 r v h1 h2 h3 hst hjson
    refine ⟨?_, by simp⟩
    have hc1 : requestOnce endpoint (trace 1)
        = .error (.connectionError ("Failed to connect to AWX: " ++ m1)) := by
      rw [h1, requestOnce]
    have hc2 : requestOnce endpoint (trace 2)
        = .error (.connectionError ("Failed to connect to AWX: " ++ m2)) := by
      rw [h2, requestOnce]
    have hc3 : requestOnce endpoint (trace 3) = .ok v := by
      rw [h3, requestOnce]
      have h401 : r.status ≠ 401 := by omega
      have h403 : r.status ≠ 403 := by omega
      have h404 : r.status ≠ 404 := by omega
      have hge : ¬ (400 ≤ r.status) := by omega
      rw [if_neg h401, if_neg h403, if_neg h404, if_neg hge, hjson]
    simp [«_request», tenacityGo, hc1, hc2, hc3, wait_exponential]
  · intro endpoint trace r ht hge
    obtain ⟨e, he⟩ := requestOnce_error_of_ge_400 endpoint r hge
    have hcall : ∀ n, requestOnce endpoint (trace n) = .error e := fun n => by
      rw [ht n, he]
    constructor
    · simp [«_request», tenacityGo, hcall]
    · exact ⟨e, by simp [«_request», tenacityGo, hcall]⟩

/-- C2: the claim (matching the function's own `-> dict[str, Any]`
annotation and docstring) says `_parse_extra_vars` always returns a map.
For the JSON-encoded string "[1, 2]" the code returns the decoded *list*
unchanged — the `json.loads` result is passed through whatever its type —
while decode failures and non-dict/non-str inputs do yield the empty
map. -/
theorem claim2_decoded_list_passed_through :
    «_parse_extra_vars» (.jstr "[1, 2]") = .jarr [.jint 1, .jint 2]
    ∧ «_parse_extra_vars» (.jstr "not valid json") = .jobj []
    ∧ «_parse_extra_vars» (.jstr "   ") = .jobj []
    ∧ «_parse_extra_vars» .jnull = .jobj [] := ⟨rfl, rfl, rfl, rfl⟩

/-- Witness for the amended C1 at concrete inputs: two connection errors
then a 200 with body "1" give (ok 1, 3 attempts, delays [2, 2]); an
endpoint answering 500 every time is attempted 3 times. -/
theorem claim1_amended_witness :
    «_request» "/api/v2/ping/"
        (fun n => if n < 3 then .connectErr "conn refused" else .resp ⟨200, "1", ""⟩)
      = (.ok (.jint 1), 3, [2, 2])
    ∧ («_request» "/api/v2/ping/" (fun _ => .resp ⟨500, "oops", ""⟩)).2.1 = 3 :=
  ⟨(claim1_amended.1 "/api/v2/ping/"
      (fun n => if n < 3 then .connectErr "conn refused" else .resp ⟨200, "1", ""⟩)
      "conn refused" "conn refused" ⟨200, "1", ""⟩ (.jint 1)
      rfl rfl rfl rfl rfl).1,
   (claim1_amended.2 "/api/v2/ping/" (fun _ => .resp ⟨500, "oops", ""⟩)
      ⟨500, "oops", ""⟩ (fun _ => rfl) (by decide)).1⟩

/-- Sample job events for concrete runs of the output retriever. -/
def wEvent1 : JobEvent := { id := 1, event := "playbook_on_start" }

/-- Sample event with a one-line stdout. -/
def wEvent2 : JobEvent :=
  { id := 2, event := "playbook_on_play_start", stdout := some "PLAY [all]" }

/-- Sample event with a two-line stdout. -/
def wEvent3 : JobEvent :=
  { id := 3, event := "runner_on_ok", stdout := some "TASK [ping]\nok: [web01]" }

/-- Sample event whose stdout is present but empty. -/
def wEvent4 : JobEvent := { id := 4, event := "verbose", stdout := some "" }

/-- C3: on a 404 from the primary stdout endpoint, `get_job_stdout`
re-fetches the job events unfiltered with page size 1000 and returns the
newline-join of all non-empty event stdout fields in event order, provided
at least one is non-empty; a 403 instead fails immediately as a permission
error, with no fallback. -/
theorem claim3_fallback_reconstructs_output :
    (∀ (job_id : Int) (r : Response)
      (fetchEvents : Bool → Nat → Nat → Except AWXError (List JobEvent))
      (fmt : String) (evs : List JobEvent),
      r.status = 404 → fetchEvents false 1 1000 = .ok evs →
      (∃ e ∈ evs, ∃ s, e.stdout = some s ∧ s ≠ "") →
      get_job_stdout job_id (.resp r) fetchEvents fmt none
        = .ok (.jstr (pyJoinNl
            ((evs.filterMap JobEvent.stdout).filter (fun s => s != "")))))
    ∧ (∀ (job_id : Int) (r : Response)
      (fetchEvents : Bool → Nat → Nat → Except AWXError (List JobEvent))
      (fmt : String) (tl : Option Nat),
      r.status = 403 →
      get_job_stdout job_id (.resp r) fetchEvents fmt tl
        = .error (.authenticationError
            ("Permission denied to access job " ++ toString job_id ++ " stdout"))) := by
  constructor
  · intro job_id r fetchEvents fmt evs hstat hfetch hnonempty
    obtain ⟨e, he, s, hs, hsne⟩ := hnonempty
    have hmem : s ∈ (evs.filterMap JobEvent.stdout).filter (fun s => s != "") :=
      List.mem_filter.mpr
        ⟨List.mem_filterMap.mpr ⟨e, he, hs⟩, by simp [hsne]⟩
    obtain ⟨f0, rest, hf⟩ :=
      List.exists_cons_of_ne_nil (List.ne_nil_of_mem hmem)
    have hf0 : f0 ≠ "" := by
      have : f0 ∈ (evs.filterMap JobEvent.stdout).filter (fun s => s != "") := by
        rw [hf]; exact List.mem_cons_self f0 rest
      have := (List.mem_filter.mp this).2
      simpa using this
    have hcontent :
        reconstructOutput evs ≠ "" := by
      rw [reconstructOutput, hf]
      apply ne_empty_of_data_ne_nil
      rw [pyJoinNl, data_mk]
      exact joinNl_cons_ne_nil f0.data _ (data_ne_nil_of_ne_empty hf0)
    simp only [get_job_stdout, hstat, if_pos, hfetch]
    rw [if_neg hcontent]
    simp [reconstructOutput]
  · intro job_id r fetchEvents fmt tl hstat
    simp [get_job_stdout, hstat]

/-- Witness for C3 at a concrete job: events with stdouts
[none, "PLAY [all]", "TASK [ping]\nok: [web01]"] reconstruct after a 404,
and a 403 fails as a permission error. -/
theorem claim3_witness :
    get_job_stdout 7 (.resp ⟨404, "", "text/html"⟩)
        (fun _ _ _ => .ok [wEvent1, wEvent2, wEvent3]) "txt" none
      = .ok (.jstr "PLAY [all]\nTASK [ping]\nok: [web01]")
    ∧ get_job_stdout 7 (.resp ⟨403, "", "text/html"⟩)
        (fun _ _ _ => .ok []) "txt" none
      = .error (.authenticationError "Permission denied to access job 7 stdout") :=
  ⟨(claim3_fallback_reconstructs_output.1 7 ⟨404, "", "text/html"⟩
      (fun _ _ _ => .ok [wEvent1, wEvent2, wEvent3]) "txt" [wEvent1, wEvent2, wEvent3]
      rfl rfl
      ⟨wEvent2, List.mem_cons_of_mem _ (List.mem_cons_self _ _),
        "PLAY [all]", rfl, by decide⟩).trans rfl,
   (claim3_fallback_reconstructs_output.2 7 ⟨403, "", "text/html"⟩
      (fun _ _ _ => .ok []) "txt" none rfl).trans rfl⟩

/-- C6: when the primary stdout call answers 404 and every event's stdout
is absent or empty, `get_job_stdout` raises the client's not-found-style
`AWXClientError` whose message reports that no output is available (the
deliberate raise inside the fallback `try` is re-wrapped by its `except`),
and in particular never returns text. -/
theorem claim6_empty_reconstruction_raises :
    ∀ (job_id : Int) (r : Response)
      (fetchEvents : Bool → Nat → Nat → Except AWXError (List JobEvent))
      (fmt : String) (tl : Option Nat) (evs : List JobEvent),
      r.status = 404 → fetchEvents false 1 1000 = .ok evs →
      (∀ e ∈ evs, e.stdout = none ∨ e.stdout = some "") →
      get_job_stdout job_id (.resp r) fetchEvents fmt tl
        = .error (.clientError ("Job " ++ toString job_id ++
            " stdout endpoint unavailable (404) and job events fallback failed: " ++
            ("Job " ++ toString job_id ++
              " has no output available (no stdout or job events)")))
      ∧ ∀ s, get_job_stdout job_id (.resp r) fetchEvents fmt tl ≠ .ok s := by
  intro job_id r fetchEvents fmt tl evs hstat hfetch hempty
  have hfields : (evs.filterMap JobEvent.stdout).filter (fun s => s != "") = [] := by
    rw [List.filter_eq_nil_iff]
    intro a ha
    obtain ⟨e, he, hs⟩ := List.mem_filterMap.mp ha
    rcases hempty e he with h | h
    · rw [h] at hs; cases hs
    · rw [h] at hs; cases hs; simp
  have hcontent : reconstructOutput evs = "" := by
    rw [reconstructOutput, hfields]; rfl
  have hmain : get_job_stdout job_id (.resp r) fetchEvents fmt tl
      = .error (.clientError ("Job " ++ toString job_id ++
          " stdout endpoint unavailable (404) and job events fallback failed: " ++
          ("Job " ++ toString job_id ++
            " has no output available (no stdout or job events)"))) := by
    simp only [get_job_stdout, hstat, if_pos, hfetch]
    rw [if_pos hcontent]
  exact ⟨hmain, fun s hok => by rw [hmain] at hok; cases hok⟩

/-- Witness for C6: a job whose events carry no stdout text yields the
wrapped "no output available" client error. -/
theorem claim6_witness :
    get_job_stdout 7 (.resp ⟨404, "", "text/html"⟩)
        (fun _ _ _ => .ok [wEvent1, wEvent4]) "txt" none
      = .error (.clientError ("Job 7 stdout endpoint unavailable (404) and job events fallback failed: Job 7 has no output available (no stdout or job events)")) :=
  ((claim6_empty_reconstruction_raises 7 ⟨404, "", "text/html"⟩
      (fun _ _ _ => .ok [wEvent1, wEvent4]) "txt" none [wEvent1, wEvent4]
      rfl rfl (by
        intro e he
        rcases List.mem_cons.mp he with h | h
        · rw [h]; left; rfl
        · rcases List.mem_cons.mp h with h' | h'
          · rw [h']; right; rfl
          · cases h')).1).trans (by rfl)

theorem map_mk_map_data (gs : List (List Char)) :
    (gs.map String.mk).map String.data = gs := by
  rw [List.map_map]
  have h : (String.data ∘ String.mk) = id := funext fun _ => rfl
  rw [h, List.map_id]

theorem applyTail_lineCount_le (content : String) (n : Nat) (hn : 1 ≤ n) :
    (pySplitNl (applyTail (some n) content)).length ≤ n := by
  rw [applyTail]
  by_cases hc : content = ""
  · rw [if_neg (by simp [hc])]
    subst hc
    simpa [pySplitNl, splitNl] using hn
  · rw [if_pos ⟨by omega, hc⟩]
    have hne : splitNl content.data ≠ [] := splitNl_ne_nil _
    have hlen : 1 ≤ (splitNl content.data).length := List.length_pos.mpr hne
    have hdroplen :
        (1 : Nat) ≤ ((splitNl content.data).drop
          ((splitNl content.data).length - n)).length := by
      rw [List.length_drop]; omega
    have hdropne : (splitNl content.data).drop
        ((splitNl content.data).length - n) ≠ [] := by
      intro h; rw [h] at hdroplen; simp at hdroplen
    have hnonl : ∀ g ∈ (splitNl content.data).drop
        ((splitNl content.data).length - n), '\n' ∉ g := fun g hg =>
      splitNl_no_newline content.data g (List.mem_of_mem_drop hg)
    have hround := splitNl_joinNl _ hdropne hnonl
    have h1 : (pySplitNl content).drop ((pySplitNl content).length - n)
        = ((splitNl content.data).drop
            ((splitNl content.data).length - n)).map String.mk := by
      rw [pySplitNl, List.length_map, List.map_drop]
    show (pySplitNl (pyJoinNl
      (List.drop ((pySplitNl content).length - n) (pySplitNl content)))).length ≤ n
    rw [h1, pyJoinNl, map_mk_map_data, pySplitNl, data_mk, List.length_map,
      hround, List.length_drop]
    omega

theorem applyTailV_jstr (job_id : Int) (tl : Option Nat) (s : String) :
    applyTailV job_id tl (.jstr s) = .ok (.jstr (applyTail tl s)) := by
  cases tl with
  | none => rfl
  | some t =>
    rw [applyTailV.eq_def, applyTail]
    dsimp only
    by_cases hse : s = ""
    · subst hse
      rw [if_neg (by simp [pyTruthy]), if_neg (by simp)]
    · by_cases ht : t = 0
      · subst ht
        rw [if_neg (by simp), if_neg (by simp)]
      · rw [if_pos ⟨ht, by simp [pyTruthy, hse]⟩, if_pos ⟨ht, hse⟩]

/-- C4, counterexample: the claim says `tail_lines=N` always bounds the
output at N lines, also on the 404 event-reconstruction fallback.  On a
404 with three reconstructed lines and `tail_lines=1` the fallback returns
all three lines: the truncation step only runs on the primary success
path, after the fallback has already returned. -/
theorem claim4_counterexample :
    get_job_stdout 7 (.resp ⟨404, "", "text/plain"⟩)
        (fun _ _ _ => .ok [wEvent2, wEvent3]) "txt" (some 1)
      = .ok (.jstr "PLAY [all]\nTASK [ping]\nok: [web01]")
    ∧ (pySplitNl "PLAY [all]\nTASK [ping]\nok: [web01]").length = 3
    ∧ ¬ ((3 : Nat) ≤ 1) := ⟨rfl, rfl, by decide⟩

/-- C4 (amended): for a 2xx primary response with `tail_lines = N`, N ≥ 1:
when the assembled content is a string, the result is its tail-truncation
and holds at most N newline-delimited lines; when the assembled content is
a truthy non-string (a JSON body whose `content` field is not a string),
the call raises `AWXClientError` — `content.split` fails with
`AttributeError`, wrapped by the enclosing `except`.  The 404
event-reconstruction fallback returns its text untruncated (see the
counterexample), and `tail_lines = 0` is falsy in the guard, so it also
truncates nothing. -/
theorem claim4_amended :
    ∀ (job_id : Int) (r : Response)
      (fetchEvents : Bool → Nat → Nat → Except AWXError (List JobEvent))
      (fmt : String) (n : Nat),
      r.status < 400 → 1 ≤ n →
      (∀ s, assembleSuccessContent r = .jstr s →
        get_job_stdout job_id (.resp r) fetchEvents fmt (some n)
          = .ok (.jstr (applyTail (some n) s))
        ∧ (pySplitNl (applyTail (some n) s)).length ≤ n)
      ∧ (∀ v, assembleSuccessContent r = v → (∀ s, v ≠ .jstr s) →
        pyTruthy v = true →
        get_job_stdout job_id (.resp r) fetchEvents fmt (some n)
          = .error (.clientError
              ("Unexpected error fetching job " ++ toString job_id ++
                " output: \x27" ++ pyTypeName v ++
                "\x27 object has no attribute \x27split\x27"))) := by
  intro job_id r fetchEvents fmt n hstat hn
  have h404 : r.status ≠ 404 := by omega
  have h403 : r.status ≠ 403 := by omega
  have hge : ¬ (400 ≤ r.status) := by omega
  have hmain : get_job_stdout job_id (.resp r) fetchEvents fmt (some n)
      = applyTailV job_id (some n) (assembleSuccessContent r) := by
    rw [get_job_stdout, if_neg h404, if_neg h403, if_neg hge]
  constructor
  · intro s hs
    refine ⟨?_, applyTail_lineCount_le s n hn⟩
    rw [hmain, hs, applyTailV_jstr]
  · intro v hv hnotstr htr
    rw [hmain, hv, applyTailV.eq_def]
    dsimp only
    rw [if_pos ⟨by omega, htr⟩]
    cases v with
    | jstr s => exact absurd rfl (hnotstr s)
    | jnull => rfl
    | jbool b => rfl
    | jint m => rfl
    | jarr xs => rfl
    | jobj fields => rfl

/-- Witness for the amended C4: a 200 text/plain body "a\nb\nc" with
`tail_lines=2` returns the last two lines, and a 200 JSON body whose
`content` field is the integer 42 raises the wrapped AttributeError with
`tail_lines=1`. -/
theorem claim4_amended_witness :
    get_job_stdout 7 (.resp ⟨200, "a\nb\nc", "text/plain"⟩)
        (fun _ _ _ => .ok []) "txt" (some 2) = .ok (.jstr "b\nc")
    ∧ (pySplitNl "b\nc").length ≤ 2
    ∧ get_job_stdout 7
        (.resp ⟨200, "\x7b\"content\": 42\x7d", "application/json"⟩)
        (fun _ _ _ => .ok []) "txt" (some 1)
      = .error (.clientError
          "Unexpected error fetching job 7 output: \x27int\x27 object has no attribute \x27split\x27") :=
  ⟨(((claim4_amended 7 ⟨200, "a\nb\nc", "text/plain"⟩ (fun _ _ _ => .ok []) "txt" 2
      (by decide) (by decide)).1 "a\nb\nc" rfl).1).trans rfl,
   ((claim4_amended 7 ⟨200, "a\nb\nc", "text/plain"⟩ (fun _ _ _ => .ok []) "txt" 2
      (by decide) (by decide)).1 "a\nb\nc" rfl).2,
   (((claim4_amended 7 ⟨200, "\x7b\"content\": 42\x7d", "application/json"⟩
      (fun _ _ _ => .ok []) "txt" 1 (by decide) (by decide)).2 (.jint 42) rfl
      (fun _ h => JVal.noConfusion h) rfl)).trans rfl⟩

set_option maxRecDepth 1000000

theorem pyIn_of_infix {n1 n2 hay : String} (hinf : n1.data <:+: n2.data)
    (h : pyIn n2 hay = true) : pyIn n1 hay = true := by
  have h2 : n2.data <:+: hay.data := of_decide_eq_true h
  exact decide_eq_true (hinf.trans h2)

theorem authHit_of_publickey {combined : String}
    (h : pyIn "permission denied (publickey,password)" combined = true) :
    authHit combined = true := by
  rw [authHit]
  apply List.any_eq_true.mpr
  exact ⟨"permission denied", by simp, pyIn_of_infix (by decide) h⟩

theorem generate_suggestions_ok_ne_nil (c : FailureCategory) (err st : String)
    (ev : JobEvent) :
    ∃ l, «_generate_suggestions» c (.jstr err) (.jstr st) ev = .ok l ∧ l ≠ [] := by
  cases c <;> simp [«_generate_suggestions», pyAddForSearch]

/-- A minimal failed event carrying only an error text and a host, used to
exercise the classifier on concrete inputs. -/
def failedEvent (txt : String) (h : Option String) : JobEvent :=
  { id := 1, event := "runner_on_failed", event_level := 3, failed := true,
    host := h, stdout := some txt }

/-- C5, counterexample: the claim says any combined error text containing
"'app_version' is undefined" is classified missing_variable.  That text by
itself matches neither "undefined variable" nor "variable is not defined",
so the classifier returns unknown for it. -/
theorem claim5_counterexample :
    (analyze_job_failure 42
        [failedEvent "\x27app_version\x27 is undefined" none] "").map
        FailureAnalysis.category
      = .ok .UNKNOWN
    ∧ FailureCategory.UNKNOWN ≠ FailureCategory.MISSING_VARIABLE :=
  ⟨rfl, by decide⟩

/-- C5 (amended): when the first failed event's extracted error text is a
pair of strings matching a missing-variable pattern ("undefined variable"
or "variable is not defined", case-insensitively), matching none of the
higher-precedence inventory or auth patterns, whose first quoted word
followed by "undefined" is `app_version` (as in the standard Ansible
message), then `analyze_job_failure` returns missing_variable and prepends
a suggestion naming `app_version`.  The bare text "'app_version' is
undefined" does not qualify (see the counterexample). -/
theorem claim5_amended :
    ∀ (job_id : Int) (events : List JobEvent) (out err st : String)
      (ev : JobEvent) (rest : List JobEvent),
      events.filter (fun e => e.failed) = ev :: rest →
      extractErrorParts ev = .ok (.jstr err, .jstr st) →
      inventoryHit (pyLower (err ++ " " ++ st)) = false →
      authHit (pyLower (err ++ " " ++ st)) = false →
      missingVarHit (pyLower (err ++ " " ++ st)) = true →
      varSearch (err ++ st).data = some "app_version" →
      ∃ a, analyze_job_failure job_id events out = .ok a
        ∧ a.category = .MISSING_VARIABLE
        ∧ "Define the variable \x27app_version\x27 in extra_vars or playbook"
            ∈ a.suggested_fixes := by
  intro job_id events out err st ev rest hfilter hextract hinv hauth hmiss hvar
  simp only [analyze_job_failure, hfilter, hextract, «_classify_failure», pyStr,
    hinv, hauth, hmiss, Bool.false_eq_true, if_false, if_true,
    «_generate_suggestions», pyAddForSearch, hvar, pydanticStr]
  simp

/-- The standard Ansible missing-variable error message. -/
def ansibleUndefinedMsg : String :=
  "The task includes an option with an undefined variable. The error was: \x27app_version\x27 is undefined"

/-- A failed event whose `event_data["res"]["msg"]` carries the standard
Ansible missing-variable message. -/
def missingVarEvent : JobEvent :=
  { id := 10, event := "runner_on_failed", event_level := 3, failed := true,
    task := some "Deploy application", host := some "web01",
    event_data := [("res", .jobj [("msg", .jstr ansibleUndefinedMsg)])] }

/-- Witness for the amended C5: the standard Ansible message is classified
missing_variable with a suggestion naming `app_version`. -/
theorem claim5_amended_witness :
    (analyze_job_failure 10 [missingVarEvent] "").map FailureAnalysis.category
      = .ok .MISSING_VARIABLE
    ∧ (analyze_job_failure 10 [missingVarEvent] "").map
        (fun a => decide
          ("Define the variable \x27app_version\x27 in extra_vars or playbook"
            ∈ a.suggested_fixes))
      = .ok true := by
  obtain ⟨a, ha, hcat, hmem⟩ :=
    claim5_amended 10 [missingVarEvent] "" ansibleUndefinedMsg "" missingVarEvent []
      rfl rfl (by decide) (by decide) (by decide) (by decide)
  rw [ha]
  exact ⟨by simp [Except.map, hcat], by simp [Except.map, decide_eq_true hmem]⟩

/-- C8, counterexample: the claim says any combined error text containing
"Permission denied (publickey,password)" yields auth_failure.  The
inventory-issue patterns are checked first, so a text also containing
"unreachable" is classified inventory_issue instead. -/
theorem claim8_counterexample :
    (analyze_job_failure 42
        [failedEvent "Host unreachable: Permission denied (publickey,password)"
          (some "web01")] "").map FailureAnalysis.category = .ok .INVENTORY_ISSUE
    ∧ FailureCategory.INVENTORY_ISSUE ≠ FailureCategory.AUTH_FAILURE :=
  ⟨rfl, by decide⟩

/-- C8 (amended): when the first failed event's extracted error text is a
pair of strings containing "Permission denied (publickey,password)" and
matching none of the higher-precedence inventory-issue phrases
(unreachable / could not resolve hostname / connection refused), and the
event has a host, then `analyze_job_failure` returns auth_failure,
populates the host from the event, and suggests verifying SSH
credentials. -/
theorem claim8_amended :
    ∀ (job_id : Int) (events : List JobEvent) (out err st h : String)
      (ev : JobEvent) (rest : List JobEvent),
      events.filter (fun e => e.failed) = ev :: rest →
      extractErrorParts ev = .ok (.jstr err, .jstr st) →
      pyIn "permission denied (publickey,password)"
        (pyLower (err ++ " " ++ st)) = true →
      inventoryHit (pyLower (err ++ " " ++ st)) = false →
      ev.host = some h →
      ∃ a, analyze_job_failure job_id events out = .ok a
        ∧ a.category = .AUTH_FAILURE
        ∧ a.host = some h
        ∧ "Verify SSH credentials or keys are correct" ∈ a.suggested_fixes := by
  intro job_id events out err st h ev rest hfilter hextract hbig hinv hhost
  have hauth := authHit_of_publickey hbig
  simp only [analyze_job_failure, hfilter, hextract, «_classify_failure», pyStr,
    hinv, hauth, Bool.false_eq_true, if_false, if_true,
    «_generate_suggestions», pydanticStr, hhost]
  simp

/-- Witness for the amended C8: an SSH public-key rejection is classified
auth_failure with host `web01` and an SSH-credentials suggestion. -/
theorem claim8_amended_witness :
    (analyze_job_failure 42
        [failedEvent "Permission denied (publickey,password)" (some "web01")]
        "").map FailureAnalysis.category = .ok .AUTH_FAILURE
    ∧ (analyze_job_failure 42
        [failedEvent "Permission denied (publickey,password)" (some "web01")]
        "").map FailureAnalysis.host = .ok (some "web01")
    ∧ (analyze_job_failure 42
        [failedEvent "Permission denied (publickey,password)" (some "web01")]
        "").map
        (fun a => decide
          ("Verify SSH credentials or keys are correct" ∈ a.suggested_fixes))
      = .ok true := by
  obtain ⟨a, ha, hcat, hhost, hmem⟩ :=
    claim8_amended 42
      [failedEvent "Permission denied (publickey,password)" (some "web01")]
      "" "Permission denied (publickey,password)" "" "web01"
      (failedEvent "Permission denied (publickey,password)" (some "web01")) []
      rfl rfl (by decide) (by decide) rfl
  rw [ha]
  exact ⟨by simp [Except.map, hcat], by simp [Except.map, hhost],
    by simp [Except.map, decide_eq_true hmem]⟩

/-- A failed event whose `event_data["res"]` is the integer 5 — a payload
the free-form `dict[str, Any]` type admits. -/
def badResEvent : JobEvent :=
  { id := 7, event := "runner_on_failed", event_level := 3, failed := true,
    stdout := some "boom", event_data := [("res", .jint 5)] }

/-- C9, counterexample: the claim says `analyze` never raises for every
input.  `event_data` is a free-form `dict[str, Any]`, and for
`event_data = {"res": 5}` the statement `if "msg" in res:` applies `in` to
an int and raises `TypeError: argument of type \x27int\x27 is not
iterable`. -/
theorem claim9_counterexample :
    analyze_job_failure 42 [badResEvent] ""
      = .error (.typeError "argument of type \x27int\x27 is not iterable") := rfl

/-- C9 (amended): `analyze_job_failure` returns a Failure Analysis without
raising on every input whose first failed event stays within the
documented `event_data` shape — its `res` entry, when present, a dict
whose `msg`/`stderr` entries, when present, are strings — with a
non-empty suggestions list; in particular, for every event list with zero
failed events it returns category unknown with the single generic
suggestion.  Outside that shape the classifier can raise (see the
counterexample). -/
theorem claim9_amended :
    ∀ (job_id : Int) (events : List JobEvent) (out : String),
      (events.filter (fun e => e.failed) = [] →
        analyze_job_failure job_id events out
          = .ok { job_id := job_id, category := .UNKNOWN,
                  suggested_fixes :=
                    ["No failed events found. Check job status for details."] })
      ∧ (∀ (ev : JobEvent) (rest : List JobEvent) (err st : String),
          events.filter (fun e => e.failed) = ev :: rest →
          extractErrorParts ev = .ok (.jstr err, .jstr st) →
          ∃ a, analyze_job_failure job_id events out = .ok a
            ∧ a.suggested_fixes ≠ []) := by
  intro job_id events out
  constructor
  · intro hf
    simp [analyze_job_failure, hf]
  · intro ev rest err st hf hextract
    obtain ⟨l, hl, hlne⟩ := generate_suggestions_ok_ne_nil
      («_classify_failure» (.jstr err) (.jstr st) ev) err st ev
    simp only [analyze_job_failure, hf, hextract, hl, pydanticStr]
    exact ⟨_, rfl, hlne⟩

/-- Witness for the amended C9: a run with no failed events yields unknown
plus the generic suggestion, and a simple in-shape failed event yields an
analysis with non-empty suggestions. -/
theorem claim9_amended_witness :
    analyze_job_failure 3 [wEvent2] ""
      = .ok { job_id := 3, category := .UNKNOWN,
              suggested_fixes :=
                ["No failed events found. Check job status for details."] }
    ∧ (analyze_job_failure 5 [failedEvent "boom" none] "").map
        (fun a => decide (a.suggested_fixes ≠ [])) = .ok true := by
  constructor
  · exact (claim9_amended 3 [wEvent2] "").1 rfl
  · obtain ⟨a, ha, hne⟩ := (claim9_amended 5 [failedEvent "boom" none] "").2
      (failedEvent "boom" none) [] "boom" "" rfl rfl
    rw [ha]
    simp [Except.map, decide_eq_true hne]

theorem pollLoop_count_le (P : Nat → List (String × JVal)) :
    ∀ (fuel d s : Nat), (pollLoop P d s fuel).1 ≤ d + fuel
  | 0, d, s => by simp [pollLoop]
  | fuel + 1, d, s => by
    rw [pollLoop]
    split
    · show d + 1 ≤ d + (fuel + 1)
      omega
    · have := pollLoop_count_le P fuel (d + 1) (s + 1)
      omega

theorem pollLoop_exhaust (P : Nat → List (String × JVal)) :
    ∀ (fuel d s : Nat),
      (∀ j, j < fuel → isTerminalStatus (P (d + j)) = false) →
      pollLoop P d s fuel = (d + fuel, s + fuel)
  | 0, d, s, _ => by simp [pollLoop]
  | fuel + 1, d, s, hall => by
    rw [pollLoop]
    have h0 : isTerminalStatus (P d) = false := by
      have := hall 0 (by omega)
      simpa using this
    rw [if_neg (by simp [h0])]
    have hrec := pollLoop_exhaust P fuel (d + 1) (s + 1) (fun j hj => by
      have := hall (j + 1) (by omega)
      rw [show d + (j + 1) = d + 1 + j by omega] at this
      exact this)
    rw [hrec]
    simp only [Prod.mk.injEq]
    omega

theorem pollLoop_first_terminal (P : Nat → List (String × JVal)) :
    ∀ (fuel k d s : Nat), k < fuel →
      isTerminalStatus (P (d + k)) = true →
      (∀ j, j < k → isTerminalStatus (P (d + j)) = false) →
      pollLoop P d s fuel = (d + k + 1, s + k)
  | 0, k, d, s, hk, _, _ => absurd hk (Nat.not_lt_zero k)
  | fuel + 1, 0, d, s, _, hterm, _ => by
    have h0 : isTerminalStatus (P d) = true := by simpa using hterm
    rw [pollLoop, h0]
    simp
  | fuel + 1, k + 1, d, s, hk, hterm, hbefore => by
    rw [pollLoop]
    have h0 : isTerminalStatus (P d) = false := by
      have := hbefore 0 (by omega)
      simpa using this
    rw [if_neg (by simp [h0])]
    have hrec := pollLoop_first_terminal P fuel k (d + 1) (s + 1) (by omega)
      (by rw [show d + 1 + k = d + (k + 1) by omega]; exact hterm)
      (fun j hj => by
        have := hbefore (j + 1) (by omega)
        rw [show d + (j + 1) = d + 1 + j by omega] at this
        exact this)
    rw [hrec]
    simp only [Prod.mk.injEq]
    omega

/-- The launch response of a project-update POST, as the controller
returns it while the update is still queued. -/
def launchPending : List (String × JVal) :=
  [("id", .jint 5), ("status", .jstr "pending")]

/-- A status oracle whose every poll reports a running update. -/
def alwaysRunning : Nat → List (String × JVal) :=
  fun _ => [("status", .jstr "running")]

/-- C7, counterexample: the claim says that on exhausting the poll budget
the operation returns the last-seen status.  With every poll reporting
"running", `update_project` performs the full 60 polls but then returns
the original launch response — whose status is still "pending" — not the
last-seen "running" status. -/
theorem claim7_counterexample :
    update_project launchPending alwaysRunning true = (launchPending, 60, 60)
    ∧ launchPending.lookup "status" = some (.jstr "pending")
    ∧ (alwaysRunning 59).lookup "status" = some (.jstr "running")
    ∧ JVal.jstr "pending" ≠ JVal.jstr "running" :=
  ⟨rfl, rfl, rfl, by simp⟩

/-- C7 (amended): with `wait=true` and a launch response carrying an `id`,
`update_project` polls at most 60 times at one-second intervals, stops at
the first terminal status (k+1 polls and k sleeps when poll k is the first
terminal one), performs exactly 60 polls and 60 sleeps when no poll is
terminal — and in every case returns the original launch response, not the
last-seen status. -/
theorem claim7_amended :
    ∀ (data : List (String × JVal)) (P : Nat → List (String × JVal)),
      (data.lookup "id").isSome = true →
      (update_project data P true).1 = data
      ∧ (update_project data P true).2.1 ≤ 60
      ∧ (∀ k, k < 60 → isTerminalStatus (P k) = true →
          (∀ j, j < k → isTerminalStatus (P j) = false) →
          (update_project data P true).2 = (k + 1, k))
      ∧ ((∀ j, j < 60 → isTerminalStatus (P j) = false) →
          (update_project data P true).2 = (60, 60)) := by
  intro data P hid
  have hup : update_project data P true = (data, pollLoop P 0 0 60) := by
    rw [update_project, hid]
    rfl
  refine ⟨by rw [hup], ?_, ?_, ?_⟩
  · rw [hup]
    simpa using pollLoop_count_le P 60 0 0
  · intro k hk hterm hbefore
    rw [hup]
    have := pollLoop_first_terminal P 60 k 0 0 hk (by simpa using hterm)
      (fun j hj => by simpa using hbefore j hj)
    simpa using this
  · intro hall
    rw [hup]
    have := pollLoop_exhaust P 60 0 0 (fun j hj => by simpa using hall j hj)
    simpa using this

/-- A status oracle that reports success from the third poll on. -/
def successAfterTwo : Nat → List (String × JVal) :=
  fun i => if i < 2 then [("status", .jstr "running")]
           else [("status", .jstr "successful")]

/-- Witness for the amended C7: success observed on the third poll stops
the loop after 3 polls and 2 sleeps, and the launch response comes back. -/
theorem claim7_amended_witness :
    (update_project launchPending successAfterTwo true).1 = launchPending
    ∧ (update_project launchPending successAfterTwo true).2 = (3, 2) :=
  ⟨(claim7_amended launchPending successAfterTwo rfl).1,
   (claim7_amended launchPending successAfterTwo rfl).2.2.1 2 (by decide)
     (by decide) (by decide)⟩

/-- C10: every delete operation issues its DELETE on the raw `httpx`
client, bypassing `_request`: whatever status code the response carries
(401, 403, 404, 5xx, anything), there is exactly one attempt, the typed
error taxonomy is never raised, and `None` is returned. -/
theorem claim10_deletes_bypass_retry_and_mapping :
    ∀ (rid : Int) (conn : Nat → RawOutcome) (st : Nat) (txt : String),
      conn 1 = .resp st txt →
      delete_credential rid conn
        = (.ok (), 1, "/api/v2/credentials/" ++ toString rid ++ "/")
      ∧ delete_job_template rid conn
        = (.ok (), 1, "/api/v2/job_templates/" ++ toString rid ++ "/")
      ∧ delete_project rid conn
        = (.ok (), 1, "/api/v2/projects/" ++ toString rid ++ "/")
      ∧ delete_inventory rid conn
        = (.ok (), 1, "/api/v2/inventories/" ++ toString rid ++ "/")
      ∧ delete_inventory_group rid conn
        = (.ok (), 1, "/api/v2/groups/" ++ toString rid ++ "/")
      ∧ delete_inventory_host rid conn
        = (.ok (), 1, "/api/v2/hosts/" ++ toString rid ++ "/")
      ∧ delete_job rid conn
        = (.ok (), 1, "/api/v2/jobs/" ++ toString rid ++ "/") := by
  intro rid conn st txt h
  simp [delete_credential, delete_job_template, delete_project,
    delete_inventory, delete_inventory_group, delete_inventory_host,
    delete_job, clientDelete, h]

/-- Witness for C10: a 403 response to the raw DELETE still yields `None`
after exactly one attempt on each endpoint. -/
theorem claim10_witness :
    delete_credential 9 (fun _ => .resp 403 "Forbidden")
      = (.ok (), 1, "/api/v2/credentials/9/")
    ∧ delete_job 9 (fun _ => .resp 403 "Forbidden")
      = (.ok (), 1, "/api/v2/jobs/9/") :=
  ⟨(claim10_deletes_bypass_retry_and_mapping 9 (fun _ => .resp 403 "Forbidden")
      403 "Forbidden" rfl).1.trans rfl,
   (claim10_deletes_bypass_retry_and_mapping 9 (fun _ => .resp 403 "Forbidden")
      403 "Forbidden" rfl).2.2.2.2.2.2.trans rfl⟩

end AwxMcp

